import Mathlib

/-!
Shallow embedding of the quiz-automation repository
(`src/quiz_solver.py`, `src/browser.py`, `src/main.py`) and proofs about
its question detection, instruction extraction, file/text extraction,
submission, and orchestration logic.

External effects (the Playwright browser, the regex engine, the `magic`
sniffer, the stdlib extractors, the clock and `random`) are modelled as
explicit oracle inputs; everything the repository's own code computes from
those inputs is translated directly from the Python source.
-/

namespace QuizRepo

/-! ## Python string primitives

`pyIn pat s` embeds Python's substring test `pat in s`;
`pyLower` embeds `str.lower()` (per-character, which agrees with Python on
the ASCII data handled here); `pyNat` embeds decimal formatting of a
non-negative integer as done by f-strings / `str`. -/

def charsStartWith : List Char → List Char → Bool
  | [], _ => true
  | _ :: _, [] => false
  | a :: as, b :: bs => a == b && charsStartWith as bs

def charsContain (pat : List Char) : List Char → Bool
  | [] => pat.isEmpty
  | s@(_ :: rest) => charsStartWith pat s || charsContain pat rest

def pyIn (pat s : String) : Bool := charsContain pat.data s.data

def pyLower (s : String) : String := ⟨s.data.map Char.toLower⟩

def digitChar (d : Nat) : Char := Char.ofNat (48 + d)

/-- Fueled digit emission (fuel is structural so that concrete instances
compute); `decChars` always supplies enough fuel. -/
def decCharsGo (fuel : Nat) (n : Nat) (acc : List Char) : List Char :=
  match fuel with
  | 0 => acc
  | fuel + 1 => if n = 0 then acc else decCharsGo fuel (n / 10) (digitChar (n % 10) :: acc)

def decChars (n : Nat) : List Char :=
  if n = 0 then ['0'] else decCharsGo n n []

def pyNat (n : Nat) : String := ⟨decChars n⟩

/-- Python `str.strip()` (both ends, whitespace). -/
def dropLeadingWs : List Char → List Char
  | [] => []
  | c :: cs => if c.isWhitespace then dropLeadingWs cs else c :: cs

def pyStrip (s : String) : String :=
  ⟨dropLeadingWs ((dropLeadingWs s.data.reverse).reverse)⟩

/-- Decimal value of a digit string, the left inverse used to show `pyNat`
is injective. -/
def decVal (a : Nat) (cs : List Char) : Nat :=
  cs.foldl (fun a c => 10 * a + (c.toNat - 48)) a

/-- Number of decimal digits emitted by `decCharsAux`. -/
def dlen (n : Nat) : Nat :=
  if n = 0 then 0 else dlen (n / 10) + 1
termination_by n
decreasing_by exact Nat.div_lt_self (Nat.pos_of_ne_zero (by assumption)) (by omega)

theorem digitChar_toNat {d : Nat} (h : d < 10) : (digitChar d).toNat = 48 + d := by
  revert h
  have : ∀ d, d < 10 → (digitChar d).toNat = 48 + d := by decide
  exact this d

theorem dlen_zero : dlen 0 = 0 := by rw [dlen]; simp

theorem dlen_pos {n : Nat} (h : n ≠ 0) : dlen n = dlen (n / 10) + 1 := by
  rw [dlen]
  simp [h]

theorem dlen_le (n : Nat) : dlen n ≤ n := by
  induction n using Nat.strong_induction_on with
  | _ n ih =>
    by_cases h0 : n = 0
    · subst h0; rw [dlen_zero]
    · rw [dlen_pos h0]
      have hlt : n / 10 < n := Nat.div_lt_self (Nat.pos_of_ne_zero h0) (by omega)
      have := ih (n / 10) hlt
      omega

theorem decVal_decCharsGo : ∀ (fuel n a : Nat) (acc : List Char),
    dlen n ≤ fuel → decVal a (decCharsGo fuel n acc) = decVal (a * 10 ^ dlen n + n) acc := by
  intro fuel
  induction fuel with
  | zero =>
    intro n a acc hf
    by_cases h0 : n = 0
    · subst h0
      rw [dlen_zero]
      simp [decCharsGo, decVal]
    · rw [dlen_pos h0] at hf
      omega
  | succ fuel ih =>
    intro n a acc hf
    by_cases h0 : n = 0
    · subst h0
      rw [dlen_zero]
      simp [decCharsGo, decVal]
    · rw [dlen_pos h0] at hf
      show decVal a (if n = 0 then acc else _) = _
      rw [if_neg h0]
      rw [ih (n / 10) a _ (by omega)]
      rw [dlen_pos h0]
      show decVal _ (_ :: acc) = _
      unfold decVal
      simp only [List.foldl_cons]
      congr 1
      rw [digitChar_toNat (Nat.mod_lt n (by omega))]
      have hmod : 48 + n % 10 - 48 = n % 10 := by omega
      rw [hmod, pow_succ]
      calc 10 * (a * 10 ^ dlen (n / 10) + n / 10) + n % 10
          = a * (10 ^ dlen (n / 10) * 10) + (10 * (n / 10) + n % 10) := by ring
        _ = a * (10 ^ dlen (n / 10) * 10) + n := by rw [Nat.div_add_mod]

theorem decVal_decChars (n : Nat) : decVal 0 (decChars n) = n := by
  by_cases h0 : n = 0
  · subst h0; decide
  · rw [decChars]
    simp only [h0, if_false]
    rw [decVal_decCharsGo n n 0 [] (dlen_le n)]
    simp [decVal]

theorem pyNat_injective : Function.Injective pyNat := by
  intro m n h
  have hd : decChars m = decChars n := congrArg String.data h
  have := congrArg (decVal 0) hd
  rwa [decVal_decChars, decVal_decChars] at this

theorem pyIn_toLower {pat s : String} (hpat : (pyLower pat) = pat)
    (h : pyIn pat s = true) : pyIn pat (pyLower s) = true := by
  have key : ∀ p l : List Char, charsContain p l = true →
      charsContain (p.map Char.toLower) (l.map Char.toLower) = true := by
    intro p l
    induction l with
    | nil =>
      intro h'
      simpa [charsContain] using h'
    | cons b bs ih =>
      intro h'
      have start : ∀ p' l' : List Char, charsStartWith p' l' = true →
          charsStartWith (p'.map Char.toLower) (l'.map Char.toLower) = true := by
        intro p'
        induction p' with
        | nil => intro l' _; simp [charsStartWith]
        | cons a as ihp =>
          intro l' hs
          cases l' with
          | nil => simp [charsStartWith] at hs
          | cons c cs =>
            simp only [charsStartWith, Bool.and_eq_true, beq_iff_eq] at hs
            simp only [List.map_cons, charsStartWith, Bool.and_eq_true, beq_iff_eq]
            exact ⟨by rw [hs.1], ihp cs hs.2⟩
      simp only [charsContain, Bool.or_eq_true] at h'
      rcases h' with h' | h'
      · simp only [List.map_cons, charsContain, Bool.or_eq_true]
        exact Or.inl (by simpa using start p (b :: bs) h')
      · simp only [List.map_cons, charsContain, Bool.or_eq_true]
        exact Or.inr (ih h')
  have hdata : pat.data.map Char.toLower = pat.data := congrArg String.data hpat
  have := key pat.data s.data h
  rw [hdata] at this
  exact this

/-! ## `src/quiz_solver.py`

`QuizQuestion` is the dataclass of the same file.  `QuizData` models the
`quiz_data` dictionary handed to `QuizSolver`: whether the `questions` key
is present (an empty dict also lacks it), the structured entries under
that key, and — as an oracle for the `re` library — the successive matches
of the combined pattern `'|'.join(question_patterns)` against
`quiz_data['content']`.  The combined pattern has three capture groups
(one per alternative); `match.group(1)` is the `<div class="question">`
group, so it is a string only for matches of the first alternative and
`None` (→ `AttributeError` on `.strip()`) for the other two. -/

structure QuizQuestion where
  question_id : String
  question_text : String
  question_type : String
  options : Option (List String)
deriving DecidableEq, Repr

structure RawQuestion where
  idOpt : Option String
  text : String
  typeOpt : Option String
  options : List String
deriving DecidableEq, Repr

inductive ContentMatch where
  /-- a match of the first alternative; `group(1)` holds the captured text -/
  | divQ (raw : String)
  /-- a match of the `<h3>` or `<p class="question-text">` alternative:
  `group(1)` is `None` -/
  | otherGroup
deriving DecidableEq, Repr

structure QuizData where
  hasQuestions : Bool
  questions : List RawQuestion
  contentMatches : List ContentMatch
deriving DecidableEq, Repr

/-- `QuizSolver._determine_question_type`. -/
def determine_question_type (question_text : String) : String :=
  let t := pyLower question_text
  if pyIn "true or false" t || pyIn "true/false" t then "boolean"
  else if pyIn "select all" t || pyIn "check all" t then "multiple_choice"
  else if pyIn "file" t || pyIn "upload" t then "file"
  else if pyIn "how many" t || pyIn "count" t || pyIn "number of" t then "number"
  else if pyIn "json" t || pyIn "api" t || pyIn "data" t then "json"
  else "text"

/-- The `for q in self.quiz_data['questions']` loop of
`QuizSolver._parse_quiz_data`: id from `q.get('id', f"q{len+1}")`, text
from `q.get('text','').strip()`, type from `q.get('type','text')`,
options from `q.get('options', [])`. -/
def structuredFold : List RawQuestion → List QuizQuestion → List QuizQuestion
  | [], acc => acc
  | q :: rest, acc =>
    let qid := q.idOpt.getD ("q" ++ pyNat (acc.length + 1))
    structuredFold rest
      (acc ++ [⟨qid, pyStrip q.text, q.typeOpt.getD "text", some q.options⟩])

/-- The `for i, match in enumerate(re.finditer(...))` loop at the end of
`QuizSolver._parse_quiz_data`.  `i` is the match index; a match whose
`group(1)` is `None` raises `AttributeError` (this part of the method is
outside the `try` block, so the exception propagates). -/
def heuristicLoop : List ContentMatch → Nat → List QuizQuestion →
    Except String (List QuizQuestion)
  | [], _, acc => .ok acc
  | .otherGroup :: _, _, _ =>
    .error "AttributeError: NoneType object has no attribute strip"
  | .divQ raw :: rest, i, acc =>
    let t := pyStrip raw
    if t = "" then heuristicLoop rest (i + 1) acc
    else
      heuristicLoop rest (i + 1)
        (acc ++ [⟨"q" ++ pyNat (i + 1), t, determine_question_type t, none⟩])

/-- `QuizSolver._parse_quiz_data`: the guard
`if not self.quiz_data or 'questions' not in self.quiz_data` returns early
(so the heuristic loop below it never runs and `self.questions` stays
empty); otherwise the structured loop runs and then the heuristic loop
over `content` runs as well. -/
def parse_quiz_data (d : QuizData) : Except String (List QuizQuestion) :=
  if !d.hasQuestions then .ok []
  else heuristicLoop d.contentMatches 0 (structuredFold d.questions [])

/-! `QuizSolver._solve_question` and `QuizSolver.solve_quiz`.  The
`random` module is an oracle.  `solve_quiz` builds, for each question, a
result dict; the value for its `'confidence'` key comes from
`self._calculate_confidence(question, answer)`, and `QuizSolver` defines
no method of that name, so the attribute lookup raises `AttributeError`,
which the per-question `except` turns into an error record. -/

structure RandOracle where
  coin : Bool
  natVal : Nat
  idx : Nat

inductive AnswerVal where
  | bval (b : Bool)
  | nval (n : Nat)
  | sval (s : String)
deriving DecidableEq, Repr

/-- `QuizSolver._solve_question`. -/
def solve_question (r : RandOracle) (q : QuizQuestion) : AnswerVal :=
  if q.question_type = "boolean" then .bval r.coin
  else if q.question_type = "number" then .nval (1 + r.natVal % 100)
  else if q.question_type = "multiple_choice" then
    match q.options with
    | some (o :: os) => .sval ((o :: os).getD (r.idx % (o :: os).length) o)
    | _ => .sval "A"
  else .sval ("Sample answer for " ++ q.question_id)

/-- The call `self._calculate_confidence(question, answer)` — the method
does not exist anywhere on `QuizSolver`, so the call site raises
`AttributeError` unconditionally. -/
def calculate_confidence_call : Except String Rat :=
  .error "AttributeError: QuizSolver object has no attribute _calculate_confidence"

structure SolveRecord where
  question_id : String
  question_type : String
  answer : Option AnswerVal
  confidence : Rat
  error : Option String
deriving DecidableEq

/-- One iteration of the loop in `QuizSolver.solve_quiz`: the `try` body
computes the answer, then evaluates the result dict whose `'confidence'`
entry raises; the `except` appends the error record instead. -/
def solveQuizStep (r : RandOracle) (q : QuizQuestion) : SolveRecord :=
  let ans := solve_question r q
  match calculate_confidence_call with
  | .ok c => ⟨q.question_id, q.question_type, some ans, c, none⟩
  | .error e => ⟨q.question_id, q.question_type, none, 0, some e⟩

/-- `QuizSolver.solve_quiz`. -/
def solve_quiz (r : RandOracle) (qs : List QuizQuestion) : List SolveRecord :=
  qs.map (solveQuizStep r)

/-! ## `src/browser.py`: `BrowserManager._extract_instructions`

The `re.finditer` calls are the oracle: `InstrMatch` carries the pattern
family (`'general'`, `'note'`, `'important'`, `'hint'`) and the text of
capture group 1, listed in the order the two nested loops visit them.
The `context` slice of the surrounding content does not bear on any
claim and is omitted. -/

structure InstrMatch where
  itype : String
  captured : String
deriving DecidableEq, Repr

structure Instruction where
  itype : String
  text : String
deriving DecidableEq, Repr

/-- `BrowserManager._extract_instructions`: keeps a match iff
`instruction_text` (the stripped group) is truthy and
`len(instruction_text) > 10`. -/
def extract_instructions : List InstrMatch → List Instruction
  | [] => []
  | m :: rest =>
    let t := pyStrip m.captured
    if t ≠ "" ∧ 10 < t.length then ⟨m.itype, t⟩ :: extract_instructions rest
    else extract_instructions rest

/-! ## `src/browser.py`: `BrowserManager._identify_questions`

`QMatch` is the oracle for one regex match across the three
`question_patterns`, in iteration order: the pattern family
(`'numbering'`, `'question_mark'`, `'q_prefix'`) and the text of
`match.group(2 if len(match.groups()) > 1 else 1)`.  The `context`,
`position` and `metadata` fields of the produced dict are copied straight
from the match oracle and bear on no claim; they are omitted. -/

structure QMatch where
  family : String
  raw : String
deriving DecidableEq, Repr

structure BQuestion where
  id : String
  qtype : String
  text : String
deriving DecidableEq, Repr

/-- The nested loops of `BrowserManager._identify_questions`: strip the
captured text, skip it when shorter than 5 characters, otherwise append
it with id `f"q{len(questions) + 1}"`. -/
def identifyGo : List QMatch → List BQuestion → List BQuestion
  | [], acc => acc
  | m :: rest, acc =>
    let t := pyStrip m.raw
    if t.length < 5 then identifyGo rest acc
    else identifyGo rest (acc ++ [⟨"q" ++ pyNat (acc.length + 1), m.family, t⟩])

/-- `BrowserManager._identify_questions`. -/
def identify_questions (ms : List QMatch) : List BQuestion := identifyGo ms []

/-! ## `src/browser.py`: `BrowserManager.extract_text_from_file`

`browser.py` defines `extract_text_from_file` twice on the class body
(lines 249 and 448); the second definition shadows the first, so the
effective method is the one at lines 448-515 and it is the one embedded
here.  `FileEnv` is the oracle for the file system and the third-party
extractors: whether `file_path.exists()`, the `magic` MIME sniff, the
path suffix (used by `_get_file_extension` when the content type is
falsy), and the outcome of each `_extract_text_from_*` helper
(`Except.error` = the helper raised).  `_extract_text_with_ocr` catches
its own failures and returns `""`; it raises only the `ImportError` for
missing libraries, which is the same on every call of a run, so its
outcome is a single value of the environment. -/

structure FileEnv where
  fileOnDisk : Bool
  fileName : String
  fileSize : Nat
  suffix : String
  sniffed : Except String String
  pdf : Except String String
  docx : Except String String
  pptx : Except String String
  xlsx : Except String String
  readTextRes : Except String String
  ocr : Except String String
deriving Repr

/-- A Python `dict[str, str]` as an association list; `dictGet d key`
embeds `d.get(key, '')`. -/
def dictGet : List (String × String) → String → String
  | [], _ => ""
  | p :: rest, key => if key = p.1 then p.2 else dictGet rest key

/-- The module-level `SUPPORTED_FILE_TYPES` dict of `browser.py`. -/
def SUPPORTED_FILE_TYPES : List (String × String) :=
  [("application/pdf", "pdf"),
   ("application/vnd.openxmlformats-officedocument.wordprocessingml.document", "docx"),
   ("application/vnd.openxmlformats-officedocument.presentationml.presentation", "pptx"),
   ("application/vnd.openxmlformats-officedocument.spreadsheetml.sheet", "xlsx"),
   ("application/msword", "doc"),
   ("application/vnd.ms-powerpoint", "ppt"),
   ("application/vnd.ms-excel", "xls"),
   ("text/plain", "txt"),
   ("text/csv", "csv"),
   ("image/png", "png"),
   ("image/jpeg", "jpg"),
   ("image/gif", "gif"),
   ("image/tiff", "tiff"),
   ("image/bmp", "bmp")]

/-- The lookup `SUPPORTED_FILE_TYPES.get(content_type.lower(), '')`. -/
def supported_file_types_get (ct : String) : String :=
  dictGet SUPPORTED_FILE_TYPES ct

/-- `BrowserManager._get_file_extension`. -/
def get_file_extension (env : FileEnv) (content_type : String) : String :=
  if content_type ≠ "" then supported_file_types_get (pyLower content_type)
  else env.suffix

/-- `BrowserManager._is_ocr_supported`: membership in `OCR_SUPPORTED`. -/
def is_ocr_supported (ext : String) : Bool :=
  ["png", "jpg", "jpeg", "tiff", "bmp"].contains (pyLower ext)

structure ExtractMeta where
  file_name : String
  file_size : Nat
  content_type : String
  file_extension : String
  /-- `none` = the `'ocr_used'` key is absent from the metadata dict -/
  ocr_used : Option Bool := none
  /-- `none` = the `'ocr_fallback'` key is absent; only the shadowed
  first definition of `extract_text_from_file` ever writes this key -/
  ocr_fallback : Option Bool := none
deriving DecidableEq, Repr

structure ExtractResult where
  text : String
  metadata : ExtractMeta
  content_type : String
  file_size : Nat
  error : Option String := none
  ocr_error : Option String := none
deriving DecidableEq, Repr

/-- `content_type = content_type or self._magic.from_file(...)`:
a `None` or empty hint falls back to the sniffer, whose exception
propagates. -/
def resolve_content_type (env : FileEnv) (hint : Option String) :
    Except String String :=
  match hint with
  | some c => if c = "" then env.sniffed else .ok c
  | none => env.sniffed

/-- The `if`/`elif` dispatch of the effective `extract_text_from_file`:
`some r` = the chosen branch's extractor outcome; `none` = the final
`else` (unsupported type, only a warning is logged).  Every branch but
`'text/' in content_type` compares against `content_type.lower()`;
the `text/` test uses the un-lowered string, as in the source. -/
def primary_outcome (env : FileEnv) (ct : String) :
    Option (Except String String) :=
  if pyIn "pdf" (pyLower ct) then some env.pdf
  else if pyIn "wordprocessingml" (pyLower ct) then some env.docx
  else if pyIn "presentationml" (pyLower ct) then some env.pptx
  else if pyIn "spreadsheetml" (pyLower ct) || pyIn "excel" (pyLower ct) then some env.xlsx
  else if pyIn "text/" ct then some env.readTextRes
  else if pyIn "image/png" (pyLower ct) || pyIn "image/jpeg" (pyLower ct) ||
      pyIn "image/tiff" (pyLower ct) || pyIn "image/bmp" (pyLower ct) then some env.ocr
  else none

/-- Whether the chosen branch is the OCR branch (used to count OCR
invocations). -/
def primary_is_ocr (ct : String) : Bool :=
  if pyIn "pdf" (pyLower ct) then false
  else if pyIn "wordprocessingml" (pyLower ct) then false
  else if pyIn "presentationml" (pyLower ct) then false
  else if pyIn "spreadsheetml" (pyLower ct) || pyIn "excel" (pyLower ct) then false
  else if pyIn "text/" ct then false
  else pyIn "image/png" (pyLower ct) || pyIn "image/jpeg" (pyLower ct) ||
    pyIn "image/tiff" (pyLower ct) || pyIn "image/bmp" (pyLower ct)

/-- The effective (second) `BrowserManager.extract_text_from_file`.
Returns the result dict together with the number of calls made to
`_extract_text_with_ocr`; `Except.error` models an exception escaping
the method (`FileNotFoundError`, or a `magic` failure — this definition,
unlike the shadowed first one, has no outer `try`).  The
`processing_time` timestamp is external clock output and is omitted from
the metadata. -/
def extract_dispatch (env : FileEnv) (ct : String) : ExtractResult × Nat :=
  let ext := get_file_extension env ct
  let base : ExtractResult :=
    ⟨"", ⟨env.fileName, env.fileSize, ct, ext, none, none⟩, ct,
      env.fileSize, none, none⟩
  let k0 := if primary_is_ocr ct then 1 else 0
  match primary_outcome env ct with
  | none => (base, k0)
  | some (.ok t) => ({ base with text := t }, k0)
  | some (.error e) =>
    let r := { base with error := some e }
    if is_ocr_supported ext then
      match env.ocr with
      | .ok t =>
        ({ r with
            text := t,
            metadata := { r.metadata with ocr_used := some true } },
          k0 + 1)
      | .error oe => ({ r with ocr_error := some oe }, k0 + 1)
    else (r, k0)

def extract_text_from_file (env : FileEnv) (hint : Option String) :
    Except String (ExtractResult × Nat) :=
  if !env.fileOnDisk then
    .error ("FileNotFoundError: File not found: " ++ env.fileName)
  else
    match resolve_content_type env hint with
    | .error e => .error e
    | .ok ct => .ok (extract_dispatch env ct)

/-! ## `src/browser.py`: `BrowserManager.submit_quiz_answers`

One loop attempt (goto, filling each answer, clicking submit, the
`page.evaluate` keyword scan) is driven by an oracle indexed by
`retry_count`: either some step raised (`exn msg`) or the attempt ran to
the success check with the resulting page text (`page text`). -/

inductive AttemptOutcome where
  | exn (msg : String)
  | page (text : String)
deriving DecidableEq, Repr

/-- The `page.evaluate` success check: `document.body.innerText` contains
one of the three (case-sensitive) keywords. -/
def pageHasSuccessSignal (t : String) : Bool :=
  pyIn "success" t || pyIn "thank you" t || pyIn "submitted" t

/-- Whether the attempt with this outcome takes the `return`-success
branch of the loop body. -/
def attemptSucceeds : AttemptOutcome → Bool
  | .page t => pageHasSuccessSignal t
  | .exn _ => false

/-- The value assigned to `last_error` by a failed attempt with this
outcome. -/
def attemptErrMsg : AttemptOutcome → String
  | .page _ => "Unknown submission error"
  | .exn m => m

structure SubmitAnswersOutcome where
  status : String
  message : String
  error : Option String
  /-- number of loop iterations that ran (= attempts made) -/
  attempts : Nat
  /-- the successive `asyncio.sleep(2 ** retry_count)` durations -/
  sleeps : List Nat
deriving DecidableEq, Repr

/-- The `while retry_count < max_retries` loop of
`BrowserManager.submit_quiz_answers`, also tracking the attempts made and
the backoff sleeps performed. -/
def submitLoop (outcome : Nat → AttemptOutcome) (maxRetries : Nat)
    (retryCount : Nat) (lastError : Option String) (attempts : Nat)
    (sleeps : List Nat) : SubmitAnswersOutcome :=
  if h : retryCount < maxRetries then
    if attemptSucceeds (outcome retryCount) then
      ⟨"success", "Quiz submitted successfully", none, attempts + 1, sleeps⟩
    else
      submitLoop outcome maxRetries (retryCount + 1)
        (some (attemptErrMsg (outcome retryCount))) (attempts + 1)
        (if retryCount + 1 < maxRetries then sleeps ++ [2 ^ (retryCount + 1)]
         else sleeps)
  else
    ⟨"error", "Failed to submit quiz after " ++ pyNat maxRetries ++ " attempts",
      lastError, attempts, sleeps⟩
termination_by maxRetries - retryCount
decreasing_by omega

/-- `BrowserManager.submit_quiz_answers` (the answer filling inside each
attempt is part of the attempt oracle). -/
def submit_quiz_answers (outcome : Nat → AttemptOutcome) (maxRetries : Nat) :
    SubmitAnswersOutcome :=
  submitLoop outcome maxRetries 0 none 0 []

/-! ## `src/browser.py`: `BrowserManager.submit_quiz_answer`,
`_submit_via_form`, `_submit_via_api`

`JVal`/`jdump` embed the JSON values and `json.dumps` (default
separators `", "`/`": "`; string escaping restricted to backslash and
quote, which covers the payloads at issue).  The browser session is the
oracle `SubmitAnswerEnv`: the navigation outcome, the number of `<form>`
elements `query_selector_all('form')` finds, the outcome of the form
interaction, and the POST response. -/

inductive JVal where
  | jstr (s : String)
  | jnum (n : Int)
  | jbool (b : Bool)
  | jnull
  | jarr (xs : List JVal)
  | jobj (fields : List (String × JVal))

def jescape (s : String) : String :=
  ⟨s.data.foldr
    (fun c acc =>
      if c = '\\' then '\\' :: '\\' :: acc
      else if c = '"' then '\\' :: '"' :: acc
      else c :: acc) []⟩

def pyIntStr (n : Int) : String :=
  if n < 0 then "-" ++ pyNat n.natAbs else pyNat n.natAbs

mutual

def jdump : JVal → String
  | .jstr s => "\"" ++ jescape s ++ "\""
  | .jnum n => pyIntStr n
  | .jbool b => if b then "true" else "false"
  | .jnull => "null"
  | .jarr xs => "[" ++ jdumpList xs ++ "]"
  | .jobj fs => "\x7b" ++ jdumpFields fs ++ "\x7d"

def jdumpList : List JVal → String
  | [] => ""
  | [x] => jdump x
  | x :: y :: xs => jdump x ++ ", " ++ jdumpList (y :: xs)

def jdumpFields : List (String × JVal) → String
  | [] => ""
  | [(k, v)] => "\"" ++ jescape k ++ "\": " ++ jdump v
  | (k, v) :: f :: fs =>
    "\"" ++ jescape k ++ "\": " ++ jdump v ++ ", " ++ jdumpFields (f :: fs)

end

structure ApiResponseEnv where
  status : Nat
  /-- `some j` = `response.json()` parsed to `j`; `none` = parsing raised -/
  jsonParse : Option JVal
  rawText : String

structure FormResult where
  success : Bool
  response : String
deriving DecidableEq, Repr

structure SubmitAnswerEnv where
  nav : Except String Unit
  formsCount : Nat
  formOutcome : Except String FormResult
  api : Except String ApiResponseEnv

structure ApiRequest where
  method : String
  url : String
  contentType : String
  accept : String
  body : String
deriving DecidableEq, Repr

inductive ApiRespVal where
  | parsed (j : JVal)
  | raw (text : String)

structure ApiResult where
  success : Bool
  status_code : Nat
  response : ApiRespVal

/-- `BrowserManager._submit_via_api`: the POST request it issues and the
result dict it builds from the response. -/
def submit_via_api (a : ApiResponseEnv) (url : String) (answer_data : JVal) :
    ApiRequest × ApiResult :=
  (⟨"POST", url, "application/json", "application/json", jdump answer_data⟩,
   ⟨decide (200 ≤ a.status ∧ a.status < 300), a.status,
    match a.jsonParse with
    | some j => .parsed j
    | none => .raw a.rawText⟩)

inductive SubPath where
  | form
  | api
deriving DecidableEq, Repr

inductive AnswerSubmitResult where
  | viaForm (r : FormResult)
  | viaApi (req : ApiRequest) (r : ApiResult)

/-- `BrowserManager.submit_quiz_answer`: navigate, count forms, then take
the form path iff at least one `<form>` is present.  The first component
records which sub-routine was invoked (`none` = neither, navigation
raised); exceptions are re-raised by the outer handler. -/
def submit_quiz_answer (env : SubmitAnswerEnv) (url : String)
    (answer_data : JVal) : Option SubPath × Except String AnswerSubmitResult :=
  match env.nav with
  | .error e => (none, .error e)
  | .ok _ =>
    if env.formsCount > 0 then
      (some .form, env.formOutcome.map .viaForm)
    else
      (some .api,
       match env.api with
       | .error e => .error e
       | .ok a =>
         let (req, res) := submit_via_api a url answer_data
         .ok (.viaApi req res))

/-! ## `src/main.py`: `process_quiz_submission`

The browser fetch is the oracle `extractQuiz`; `remAfterSolve` and
`remFinal` are the values the `time_remaining()` closure would yield at
the deadline check and at result construction.  After constructing
`QuizSolver(quiz_data)` (whose `_parse_quiz_data` may raise), the
function calls `solver.solve()`; `QuizSolver` defines `solve_quiz` and
`solve_all` but no `solve`, so the call raises `AttributeError`, which
the enclosing `except` turns into the error dict. -/

structure PipelineEnv where
  extractQuiz : Except String QuizData
  remAfterSolve : Rat
  remFinal : Rat
deriving Repr

structure PipelineResult where
  status : String
  message : String
  /-- whether `solver.submit_answers(...)` was invoked -/
  submissionAttempted : Bool
  timeRemaining : Rat
deriving DecidableEq, Repr

/-- The call `await solver.solve()` on a class with no `solve` method. -/
def solver_solve_call : Except String Unit :=
  .error "AttributeError: QuizSolver object has no attribute solve"

/-- `process_quiz_submission` of `src/main.py`. -/
def process_quiz_submission (env : PipelineEnv) : PipelineResult :=
  let errResult : String → PipelineResult := fun e =>
    ⟨"error", "Failed to process quiz: " ++ e, false, max 0 env.remFinal⟩
  match env.extractQuiz with
  | .error e => errResult e
  | .ok qd =>
    match parse_quiz_data qd with
    | .error e => errResult e
    | .ok _qs =>
      match solver_solve_call with
      | .error e => errResult e
      | .ok _ =>
        -- continuation after a (never occurring) successful solve:
        -- `if time_remaining() > 10` guards the submission
        if env.remAfterSolve > 10 then
          ⟨"success", "Quiz processed successfully", true, max 0 env.remFinal⟩
        else
          ⟨"success", "Quiz processed successfully", false, max 0 env.remFinal⟩

/-! ## Theorems -/

/-- C10: for every list of parsed questions, `solve_quiz` returns exactly
one result record per question and never raises; every record has
`answer = None`, `confidence = 0.0` and an error string set, because each
iteration calls the undefined `self._calculate_confidence`, whose
`AttributeError` is caught by the per-question handler. -/
theorem solve_quiz_all_records_error (r : RandOracle) (qs : List QuizQuestion) :
    (solve_quiz r qs).length = qs.length ∧
    ∀ sr ∈ solve_quiz r qs, sr.answer = none ∧ sr.confidence = 0 ∧
      sr.error = some
        "AttributeError: QuizSolver object has no attribute _calculate_confidence" := by
  constructor
  · simp [solve_quiz]
  · intro sr hsr
    simp only [solve_quiz, List.mem_map] at hsr
    obtain ⟨q, _, hq⟩ := hsr
    subst hq
    simp [solveQuizStep, calculate_confidence_call]

theorem solve_quiz_all_records_error_witness :
    (solveQuizStep ⟨true, 0, 0⟩ ⟨"q1", "What is 2+2", "text", none⟩).answer = none ∧
    (solveQuizStep ⟨true, 0, 0⟩ ⟨"q1", "What is 2+2", "text", none⟩).confidence = 0 ∧
    (solveQuizStep ⟨true, 0, 0⟩ ⟨"q1", "What is 2+2", "text", none⟩).error = some
      "AttributeError: QuizSolver object has no attribute _calculate_confidence" :=
  (solve_quiz_all_records_error ⟨true, 0, 0⟩
      [⟨"q1", "What is 2+2", "text", none⟩]).2 _ (by simp [solve_quiz])

/-- C3: for every input, `process_quiz_submission` returns a result whose
status is `"error"` and never reaches answer submission: the call
`solver.solve()` names a method `QuizSolver` does not define, so every
run that gets that far raises `AttributeError`, and earlier failures
(fetch, parse) land in the same top-level handler. -/
theorem process_quiz_submission_always_error (env : PipelineEnv) :
    (process_quiz_submission env).status = "error" ∧
    (process_quiz_submission env).submissionAttempted = false := by
  unfold process_quiz_submission
  cases env.extractQuiz with
  | error e => simp
  | ok qd =>
    cases hp : parse_quiz_data qd with
    | error e => simp [hp]
    | ok qs => simp [hp, solver_solve_call]

/-- C2: the deadline policy the spec states is unreachable.  At a run
with 10.1 seconds of budget remaining after solving (an input on which
the claim says submission is attempted), the orchestrator neither
attempts submission nor succeeds: `solver.solve()` raises
`AttributeError` before the `time_remaining() > 10` check, and the run
returns the error result. -/
theorem deadline_check_unreachable_at_ten_point_one :
    ((101 : Rat) / 10 > 10) ∧
    (process_quiz_submission
        ⟨.ok ⟨true, [⟨some "q1", "What is 2+2", some "number", []⟩], []⟩,
          101 / 10, 101 / 10⟩).submissionAttempted = false ∧
    (process_quiz_submission
        ⟨.ok ⟨true, [⟨some "q1", "What is 2+2", some "number", []⟩], []⟩,
          101 / 10, 101 / 10⟩).status = "error" ∧
    (process_quiz_submission
        ⟨.ok ⟨true, [⟨some "q1", "What is 2+2", some "number", []⟩], []⟩,
          101 / 10, 101 / 10⟩).message =
      "Failed to process quiz: AttributeError: QuizSolver object has no attribute solve" := by
  refine ⟨by norm_num, rfl, rfl, rfl⟩

/-- Helper: `heuristicLoop` only ever appends to its accumulator. -/
theorem heuristicLoop_extends : ∀ (ms : List ContentMatch) (i : Nat)
    (acc qs : List QuizQuestion), heuristicLoop ms i acc = .ok qs → acc <+: qs := by
  intro ms
  induction ms with
  | nil =>
    intro i acc qs h
    simp only [heuristicLoop] at h
    cases h
    exact List.prefix_rfl
  | cons m rest ih =>
    intro i acc qs h
    cases m with
    | otherGroup => simp [heuristicLoop] at h
    | divQ raw =>
      simp only [heuristicLoop] at h
      split at h
      · exact ih _ _ _ h
      · exact (List.prefix_append acc _).trans (ih _ _ _ h)

/-- C1 counterexample: on a page carrying a structured `questions` array
*and* heuristic content matches, `_parse_quiz_data` produces two
questions out of one structured entry (heuristics are not skipped); on a
page without the `questions` key it returns no questions at all even
though a heuristic match is present (heuristics are not a fallback). -/
theorem parse_quiz_data_claim_counterexample :
    (parse_quiz_data
        ⟨true, [⟨some "a", "What is X", none, []⟩], [.divQ "What is 2+2"]⟩).map
      List.length = .ok 2 ∧
    ([⟨some "a", "What is X", none, []⟩] : List RawQuestion).length = 1 ∧
    parse_quiz_data ⟨false, [], [.divQ "What is the capital of France"]⟩ = .ok [] ∧
    ([ContentMatch.divQ "What is the capital of France"] ≠ ([] : List ContentMatch)) :=
  ⟨rfl, rfl, rfl, by simp⟩

/-- C1 (amended): in `_parse_quiz_data`, a missing `questions` key causes
an early return with an empty question list (the heuristic detectors
never run), while a present `questions` key yields the structured
questions first and then additionally runs the freeform heuristics over
`content`, appending their matches; only when the content produces no
matches is the result exactly the structured list. -/
theorem parse_quiz_data_spec (d : QuizData) :
    (d.hasQuestions = false → parse_quiz_data d = .ok []) ∧
    (d.hasQuestions = true → d.contentMatches = [] →
      parse_quiz_data d = .ok (structuredFold d.questions [])) ∧
    (∀ qs, d.hasQuestions = true → parse_quiz_data d = .ok qs →
      structuredFold d.questions [] <+: qs) := by
  refine ⟨fun h => ?_, fun h hc => ?_, fun qs h hok => ?_⟩
  · simp [parse_quiz_data, h]
  · simp [parse_quiz_data, h, hc, heuristicLoop]
  · simp only [parse_quiz_data, h, Bool.not_true, Bool.false_eq_true,
      if_false] at hok
    exact heuristicLoop_extends _ _ _ _ hok

theorem parse_quiz_data_spec_witness :
    parse_quiz_data ⟨true, [⟨some "a", "What is X", none, []⟩], []⟩ =
      .ok (structuredFold [⟨some "a", "What is X", none, []⟩] []) :=
  (parse_quiz_data_spec ⟨true, [⟨some "a", "What is X", none, []⟩], []⟩).2.1 rfl rfl

/-- Helper: a string longer than 10 characters is not empty. -/
theorem ne_empty_of_ten_lt_length {t : String} (h : 10 < t.length) : t ≠ "" := by
  intro he
  rw [he] at h
  simp [String.length] at h

/-- C7 counterexample: an instruction match whose captured text has
exactly 10 characters is discarded by `_extract_instructions` (the filter
is `len > 10`, strictly), contradicting the claim that matches of 10 or
more characters are retained. -/
theorem extract_instructions_drops_length_ten :
    pyStrip "abcdefghij" = "abcdefghij" ∧
    ("abcdefghij" : String).length = 10 ∧
    extract_instructions [⟨"general", "abcdefghij"⟩] = [] := ⟨rfl, rfl, rfl⟩

/-- C7 (amended): `_extract_instructions` excludes exactly the matches
whose stripped captured text has 10 characters or fewer: every retained
instruction is strictly longer than 10 characters, and every match
strictly longer than 10 characters is retained. -/
theorem extract_instructions_length_filter (ms : List InstrMatch) :
    (∀ inst ∈ extract_instructions ms, 10 < inst.text.length) ∧
    (∀ m ∈ ms, 10 < (pyStrip m.captured).length →
      (⟨m.itype, pyStrip m.captured⟩ : Instruction) ∈ extract_instructions ms) := by
  induction ms with
  | nil => simp [extract_instructions]
  | cons m rest ih =>
    constructor
    · intro inst hins
      simp only [extract_instructions] at hins
      split at hins
      · rcases List.mem_cons.1 hins with h | h
        · subst h
          next hcond => exact hcond.2
        · exact ih.1 _ h
      · exact ih.1 _ hins
    · intro m' hm' hlen
      rcases List.mem_cons.1 hm' with h | h
      · subst h
        simp only [extract_instructions]
        rw [if_pos ⟨ne_empty_of_ten_lt_length hlen, hlen⟩]
        exact List.mem_cons_self _ _
      · have htail := ih.2 m' h hlen
        simp only [extract_instructions]
        split
        · exact List.mem_cons_of_mem _ htail
        · exact htail

theorem extract_instructions_length_filter_witness :
    (⟨"note", "abcdefghijk"⟩ : Instruction) ∈
      extract_instructions [⟨"note", "abcdefghijk"⟩] :=
  (extract_instructions_length_filter [⟨"note", "abcdefghijk"⟩]).2
    ⟨"note", "abcdefghijk"⟩ (List.mem_singleton.2 rfl) (by decide)

/-- Helper: the id maker `fun i => "q" ++ pyNat (i + 1)` is injective. -/
theorem qid_injective : Function.Injective (fun i : Nat => "q" ++ pyNat (i + 1)) := by
  intro a b hab
  have hdata := congrArg String.data hab
  rw [String.data_append, String.data_append] at hdata
  have htail : (pyNat (a + 1)).data = (pyNat (b + 1)).data := by
    have : ('q' :: (pyNat (a + 1)).data) = ('q' :: (pyNat (b + 1)).data) := hdata
    exact List.tail_eq_of_cons_eq this
  have := pyNat_injective (String.ext htail)
  omega

/-- Helper: ids assigned by `identifyGo` continue the `q{count+1}`
sequence of its accumulator. -/
theorem identifyGo_ids : ∀ (ms : List QMatch) (acc : List BQuestion),
    acc.map BQuestion.id =
      (List.range acc.length).map (fun i => "q" ++ pyNat (i + 1)) →
    (identifyGo ms acc).map BQuestion.id =
      (List.range (identifyGo ms acc).length).map (fun i => "q" ++ pyNat (i + 1)) := by
  intro ms
  induction ms with
  | nil => intro acc h; simpa [identifyGo] using h
  | cons m rest ih =>
    intro acc h
    simp only [identifyGo]
    split
    · exact ih acc h
    · refine ih _ ?_
      simp only [List.map_append, List.length_append, List.map_cons, List.map_nil,
        List.length_cons, List.length_nil]
      rw [h, List.range_succ]
      simp

/-- C8 counterexample: a quiz whose structured array holds one entry
without an explicit id and whose content yields one heuristic match gets
the id `q1` twice — the heuristic phase numbers ids by regex-match index,
not by running count, so ids are not unique within the quiz. -/
theorem parse_quiz_data_duplicate_ids :
    (parse_quiz_data ⟨true, [⟨none, "hello there", none, []⟩], [.divQ "what is up"]⟩).map
      (fun l => l.map QuizQuestion.question_id) = .ok ["q1", "q1"] ∧
    ¬ (["q1", "q1"] : List String).Nodup := ⟨rfl, by simp⟩

/-- C8 (amended): within `BrowserManager._identify_questions` the claim
holds — ids are assigned sequentially as `q{running count + 1}` in the
order candidates are found and are unique within the returned list; it
is the combination of the structured and heuristic phases of
`QuizSolver._parse_quiz_data` (which numbers heuristic ids by match
index) that can repeat ids. -/
theorem identify_questions_ids_sequential_unique (ms : List QMatch) :
    (identify_questions ms).map BQuestion.id =
      (List.range (identify_questions ms).length).map (fun i => "q" ++ pyNat (i + 1)) ∧
    ((identify_questions ms).map BQuestion.id).Nodup := by
  have hids := identifyGo_ids ms [] (by simp)
  have h2 : (identify_questions ms).map BQuestion.id =
      (List.range (identify_questions ms).length).map (fun i => "q" ++ pyNat (i + 1)) := by
    simpa [identify_questions] using hids
  exact ⟨h2, by rw [h2]; exact (List.nodup_range _).map qid_injective⟩

/-- Helper: a dict lookup either misses (empty default) or returns the
value of an entry whose key equals the lookup key. -/
theorem dictGet_cases : ∀ (d : List (String × String)) (key : String),
    dictGet d key = "" ∨ ∃ p ∈ d, key = p.1 ∧ dictGet d key = p.2 := by
  intro d
  induction d with
  | nil => intro key; exact Or.inl rfl
  | cons p rest ih =>
    intro key
    by_cases hk : key = p.1
    · exact Or.inr ⟨p, List.mem_cons_self _ _, hk, by simp [dictGet, hk]⟩
    · rcases ih key with h0 | ⟨q, hq, hkq, hv⟩
      · exact Or.inl (by simp [dictGet, hk, h0])
      · exact Or.inr ⟨q, List.mem_cons_of_mem _ hq, hkq, by simp [dictGet, hk, hv]⟩

/-- Helper: the only `SUPPORTED_FILE_TYPES` values with OCR-supported
extensions are the four image MIME types. -/
theorem ocr_ext_cases (ctl : String)
    (h : is_ocr_supported (supported_file_types_get ctl) = true) :
    ctl = "image/png" ∨ ctl = "image/jpeg" ∨ ctl = "image/tiff" ∨ ctl = "image/bmp" := by
  rcases dictGet_cases SUPPORTED_FILE_TYPES ctl with h0 | ⟨p, hp, hkey, hval⟩
  · rw [supported_file_types_get, h0] at h
    exact absurd h (by decide)
  · have hcases : ∀ q ∈ SUPPORTED_FILE_TYPES, is_ocr_supported q.2 = true →
        q.1 = "image/png" ∨ q.1 = "image/jpeg" ∨ q.1 = "image/tiff" ∨ q.1 = "image/bmp" := by
      decide
    rw [supported_file_types_get, hval] at h
    rw [hkey]
    exact hcases p hp h

/-- Helper: ground evaluation of the dispatch conditions on the four OCR
image MIME types. -/
theorem image_ct_ground : ∀ ctl ∈ ["image/png", "image/jpeg", "image/tiff", "image/bmp"],
    pyIn "pdf" ctl = false ∧ pyIn "wordprocessingml" ctl = false ∧
    pyIn "presentationml" ctl = false ∧
    (pyIn "spreadsheetml" ctl || pyIn "excel" ctl) = false ∧
    (pyIn "image/png" ctl || pyIn "image/jpeg" ctl ||
      pyIn "image/tiff" ctl || pyIn "image/bmp" ctl) = true := by decide

/-- Helper: when the lowered content type is one of the four OCR image
MIME types, the primary dispatch selects the OCR branch. -/
theorem primary_ocr_of_image (env : FileEnv) (ct : String)
    (hl : pyLower ct = "image/png" ∨ pyLower ct = "image/jpeg" ∨
      pyLower ct = "image/tiff" ∨ pyLower ct = "image/bmp") :
    primary_outcome env ct = some env.ocr ∧ primary_is_ocr ct = true := by
  have htext : pyIn "text/" ct = false := by
    by_contra hcon
    have htrue : pyIn "text/" ct = true := by
      cases hv : pyIn "text/" ct
      · exact absurd hv hcon
      · rfl
    have h2 := pyIn_toLower (by decide) htrue
    rcases hl with h | h | h | h <;> rw [h] at h2 <;> exact absurd h2 (by decide)
  have hmem : pyLower ct ∈ ["image/png", "image/jpeg", "image/tiff", "image/bmp"] := by
    rcases hl with h | h | h | h <;> rw [h] <;> decide
  have g := image_ct_ground (pyLower ct) hmem
  constructor
  · unfold primary_outcome
    rw [g.1, g.2.1, g.2.2.1, g.2.2.2.1, htext, g.2.2.2.2]
    simp
  · unfold primary_is_ocr
    rw [g.1, g.2.1, g.2.2.1, g.2.2.2.1, htext, g.2.2.2.2]
    simp

/-- Helper: an empty content type selects no primary branch. -/
theorem primary_outcome_empty (env : FileEnv) : primary_outcome env "" = none := rfl

/-- Helper: invariant fields of `extract_dispatch`. -/
theorem extract_dispatch_fields (env : FileEnv) (ct : String) :
    (extract_dispatch env ct).1.metadata.content_type = ct ∧
    (extract_dispatch env ct).1.content_type = ct ∧
    (extract_dispatch env ct).1.metadata.file_extension = get_file_extension env ct ∧
    (extract_dispatch env ct).1.metadata.ocr_fallback = none := by
  cases hp : primary_outcome env ct with
  | none => simp [extract_dispatch, hp]
  | some out =>
    cases out with
    | ok t => simp [extract_dispatch, hp]
    | error e =>
      by_cases hocr : is_ocr_supported (get_file_extension env ct) = true
      · cases ho : env.ocr with
        | ok t => simp [extract_dispatch, hp, hocr, ho]
        | error oe => simp [extract_dispatch, hp, hocr, ho]
      · simp [extract_dispatch, hp, hocr]

/-- Helper: with no supported media type, no error is recorded and the
text stays empty. -/
theorem extract_dispatch_no_primary (env : FileEnv) (ct : String)
    (hp : primary_outcome env ct = none) :
    (extract_dispatch env ct).1.error = none ∧ (extract_dispatch env ct).1.text = "" := by
  simp [extract_dispatch, hp]

/-- Helper: a successful primary branch records no error. -/
theorem extract_dispatch_primary_ok (env : FileEnv) (ct t : String)
    (hp : primary_outcome env ct = some (.ok t)) :
    (extract_dispatch env ct).1.error = none := by
  simp [extract_dispatch, hp]

/-- Helper: a failing primary branch records its message in `error`. -/
theorem extract_dispatch_primary_error (env : FileEnv) (ct e : String)
    (hp : primary_outcome env ct = some (.error e)) :
    (extract_dispatch env ct).1.error = some e := by
  by_cases hocr : is_ocr_supported (get_file_extension env ct) = true
  · cases ho : env.ocr with
    | ok t => simp [extract_dispatch, hp, hocr, ho]
    | error oe => simp [extract_dispatch, hp, hocr, ho]
  · simp [extract_dispatch, hp, hocr]

/-- Helper: a run over an existing file with a resolved content type
returns the dispatch result. -/
theorem extract_ok_of_resolved (env : FileEnv) (hint : Option String)
    (ct : String) (hdisk : env.fileOnDisk = true)
    (hres : resolve_content_type env hint = .ok ct) :
    extract_text_from_file env hint = .ok (extract_dispatch env ct) := by
  unfold extract_text_from_file
  rw [hdisk, hres]
  rfl

/-- Helper: inversion of a successful `extract_text_from_file` run. -/
theorem extract_ok_inv (env : FileEnv) (hint : Option String)
    (r : ExtractResult) (k : Nat)
    (hok : extract_text_from_file env hint = .ok (r, k)) :
    ∃ ct, resolve_content_type env hint = .ok ct ∧
      r = (extract_dispatch env ct).1 ∧ k = (extract_dispatch env ct).2 := by
  unfold extract_text_from_file at hok
  by_cases hdisk : env.fileOnDisk = true
  · rw [hdisk] at hok
    simp only [Bool.not_true, Bool.false_eq_true, if_false] at hok
    cases hres : resolve_content_type env hint with
    | error e => rw [hres] at hok; simp at hok
    | ok ct =>
      rw [hres] at hok
      injection hok with h1
      exact ⟨ct, rfl, (congrArg Prod.fst h1).symm, (congrArg Prod.snd h1).symm⟩
  · rw [Bool.not_eq_true] at hdisk
    rw [hdisk] at hok
    simp at hok

/-- C4 counterexample: `extract_text_from_file` (the effective, second
definition in `browser.py`) raises `FileNotFoundError` for a missing
path instead of recording it, and for an unsupported media type records
no error at all — the result's `error` field stays absent. -/
theorem extract_text_from_file_claim_counterexample :
    extract_text_from_file
        ⟨false, "quiz.zip", 0, "zip", .ok "application/zip", .ok "", .ok "",
          .ok "", .ok "", .ok "", .ok ""⟩ none =
      .error "FileNotFoundError: File not found: quiz.zip" ∧
    (extract_text_from_file
        ⟨true, "quiz.zip", 10, "zip", .ok "application/zip", .error "boom",
          .error "boom", .error "boom", .error "boom", .error "boom",
          .error "boom"⟩ (some "application/zip")).map
      (fun p => (p.1.error, p.1.text, p.1.metadata.content_type)) =
      .ok (none, "", "application/zip") := ⟨rfl, rfl⟩

/-- C4 (amended): `extract_text_from_file` propagates a
`FileNotFoundError` for a missing file (and any sniffing failure); once
the file exists and the content type resolves, it always returns a
result whose metadata carries the resolved content type (there is no
`"unknown"` fallback in the effective definition), with a failing
extraction branch recorded in the result's `error` field and an
unsupported media type leaving the text empty with no error recorded. -/
theorem extract_text_from_file_spec (env : FileEnv) (hint : Option String) :
    (env.fileOnDisk = false → extract_text_from_file env hint =
      .error ("FileNotFoundError: File not found: " ++ env.fileName)) ∧
    (∀ ct, env.fileOnDisk = true → resolve_content_type env hint = .ok ct →
      ∃ r k, extract_text_from_file env hint = .ok (r, k) ∧
        r.metadata.content_type = ct ∧ r.content_type = ct ∧
        (primary_outcome env ct = none → r.error = none ∧ r.text = "") ∧
        (∀ e, primary_outcome env ct = some (.error e) → r.error = some e)) := by
  constructor
  · intro h
    unfold extract_text_from_file
    rw [h]
    rfl
  · intro ct hdisk hres
    have hcall := extract_ok_of_resolved env hint ct hdisk hres
    exact ⟨(extract_dispatch env ct).1, (extract_dispatch env ct).2,
      by rw [hcall],
      (extract_dispatch_fields env ct).1,
      (extract_dispatch_fields env ct).2.1,
      fun hp => extract_dispatch_no_primary env ct hp,
      fun e hp => extract_dispatch_primary_error env ct e hp⟩

theorem extract_text_from_file_spec_witness :
    extract_text_from_file
        ⟨false, "quiz.pdf", 0, "pdf", .ok "application/pdf", .ok "", .ok "",
          .ok "", .ok "", .ok "", .ok ""⟩ none =
      .error "FileNotFoundError: File not found: quiz.pdf" :=
  (extract_text_from_file_spec
      ⟨false, "quiz.pdf", 0, "pdf", .ok "application/pdf", .ok "", .ok "",
        .ok "", .ok "", .ok "", .ok ""⟩ none).1 rfl

/-- C5 counterexample: for a `.png` file whose primary extraction path
throws, the effective `extract_text_from_file` does retry via OCR (two
OCR invocations in total) but records neither `metadata.ocr_used` nor
`metadata.ocr_fallback`; the retry fails identically and only
`ocr_error` is recorded. -/
theorem ocr_fallback_claim_counterexample :
    (extract_text_from_file
        ⟨true, "diagram.png", 42, "png", .ok "image/png", .ok "", .ok "",
          .ok "", .ok "", .ok "",
          .error "ImportError: Pillow and pytesseract are required for OCR"⟩
        (some "image/png")).map
      (fun p => (p.1.error, p.1.metadata.ocr_used, p.1.metadata.ocr_fallback,
        p.1.ocr_error, p.2)) =
      .ok (some "ImportError: Pillow and pytesseract are required for OCR",
        none, none,
        some "ImportError: Pillow and pytesseract are required for OCR", 2) ∧
    is_ocr_supported "png" = true := ⟨rfl, rfl⟩

/-- C5 (amended): on any successful return of the effective
`extract_text_from_file`, `metadata.ocr_fallback` is never set (the flag
exists only in the shadowed first definition); and whenever the primary
path failed for an OCR-eligible extension, OCR was retried exactly once
(two OCR invocations in total), the retry's identical failure was
recorded in `ocr_error`, and `metadata.ocr_used` was not set. -/
theorem extract_text_from_file_ocr_fallback_spec (env : FileEnv)
    (hint : Option String) :
    ∀ r k, extract_text_from_file env hint = .ok (r, k) →
      r.metadata.ocr_fallback = none ∧
      (r.error.isSome = true →
        is_ocr_supported r.metadata.file_extension = true →
        k = 2 ∧ r.metadata.ocr_used = none ∧ r.ocr_error = r.error) := by
  intro r k hok
  obtain ⟨ct, hres, hr, hk⟩ := extract_ok_inv env hint r k hok
  subst hr
  subst hk
  refine ⟨(extract_dispatch_fields env ct).2.2.2, ?_⟩
  intro hs hsup
  rw [(extract_dispatch_fields env ct).2.2.1] at hsup
  cases hp : primary_outcome env ct with
  | none =>
    rw [(extract_dispatch_no_primary env ct hp).1] at hs
    simp at hs
  | some out =>
    cases out with
    | ok t =>
      rw [extract_dispatch_primary_ok env ct t hp] at hs
      simp at hs
    | error e =>
      -- the extension being OCR-eligible forces the content type to be
      -- one of the four image MIME types, so the failed primary branch
      -- was the OCR call itself and the retry fails identically
      have hctne : ct ≠ "" := by
        intro hct
        rw [hct, primary_outcome_empty] at hp
        cases hp
      have hcl := ocr_ext_cases (pyLower ct)
        (by
          have hgfe : get_file_extension env ct =
              supported_file_types_get (pyLower ct) := by
            unfold get_file_extension
            rw [if_pos hctne]
          rwa [hgfe] at hsup)
      have hprim := primary_ocr_of_image env ct hcl
      have hocr_err : env.ocr = .error e := by
        rw [hprim.1] at hp
        exact Option.some.inj hp
      refine ⟨?_, ?_, ?_⟩
      · show (extract_dispatch env ct).2 = 2
        simp [extract_dispatch, hp, hsup, hocr_err, hprim.2]
      · show (extract_dispatch env ct).1.metadata.ocr_used = none
        simp [extract_dispatch, hp, hsup, hocr_err]
      · show (extract_dispatch env ct).1.ocr_error = (extract_dispatch env ct).1.error
        simp [extract_dispatch, hp, hsup, hocr_err]

theorem extract_text_from_file_ocr_fallback_spec_witness :
    (⟨"", ⟨"diagram.png", 42, "image/png", "png", none, none⟩, "image/png",
        42, some "ImportError: no OCR",
        some "ImportError: no OCR"⟩ : ExtractResult).metadata.ocr_fallback = none :=
  (extract_text_from_file_ocr_fallback_spec
      ⟨true, "diagram.png", 42, "png", .ok "image/png", .ok "", .ok "",
        .ok "", .ok "", .ok "", .error "ImportError: no OCR"⟩
      (some "image/png") _ 2 rfl).1

/-- The value `last_error` holds on entry to the loop iteration with
`retry_count = rc` (and on exit when `rc = max_retries`). -/
def lastErrAt (outcome : Nat → AttemptOutcome) : Nat → Option String
  | 0 => none
  | rc + 1 => some (attemptErrMsg (outcome rc))

/-- The backoff sleeps performed before the iteration with
`retry_count = rc`: `2^1, …, 2^rc` seconds. -/
def sleepsAt (rc : Nat) : List Nat := (List.range rc).map (fun k => 2 ^ (k + 1))

theorem sleepsAt_succ (n : Nat) : sleepsAt (n + 1) = sleepsAt n ++ [2 ^ (n + 1)] := by
  simp [sleepsAt, List.range_succ]

/-- Helper: full characterisation of the `submit_quiz_answers` retry
loop, by downward induction on the remaining iterations. -/
theorem submitLoop_run (outcome : Nat → AttemptOutcome) (maxR : Nat) :
    ∀ d rc, maxR - rc = d → (rc < maxR ∨ rc = 0) →
      (submitLoop outcome maxR rc (lastErrAt outcome rc) rc (sleepsAt rc)).attempts ≤ maxR ∧
      ((submitLoop outcome maxR rc (lastErrAt outcome rc) rc (sleepsAt rc)).status = "success" ↔
        ∃ i, rc ≤ i ∧ i < maxR ∧ attemptSucceeds (outcome i) = true) ∧
      ((∀ i, rc ≤ i → i < maxR → attemptSucceeds (outcome i) = false) →
        submitLoop outcome maxR rc (lastErrAt outcome rc) rc (sleepsAt rc) =
          ⟨"error", "Failed to submit quiz after " ++ pyNat maxR ++ " attempts",
            lastErrAt outcome maxR, maxR, sleepsAt (maxR - 1)⟩) ∧
      ((submitLoop outcome maxR rc (lastErrAt outcome rc) rc (sleepsAt rc)).status = "success" →
        ∃ i, rc ≤ i ∧ i < maxR ∧ attemptSucceeds (outcome i) = true ∧
          submitLoop outcome maxR rc (lastErrAt outcome rc) rc (sleepsAt rc) =
            ⟨"success", "Quiz submitted successfully", none, i + 1, sleepsAt i⟩) := by
  intro d
  induction d with
  | zero =>
    intro rc hd hside
    have hge : maxR ≤ rc := by omega
    have hrc0 : rc = 0 := by
      rcases hside with h | h
      · omega
      · exact h
    have hm0 : maxR = 0 := by omega
    subst hrc0
    subst hm0
    have hres : submitLoop outcome 0 0 (lastErrAt outcome 0) 0 (sleepsAt 0) =
        ⟨"error", "Failed to submit quiz after " ++ pyNat 0 ++ " attempts",
          lastErrAt outcome 0, 0, sleepsAt 0⟩ := by
      rw [submitLoop]
      rfl
    rw [hres]
    refine ⟨Nat.le_refl 0, ?_, fun _ => rfl, ?_⟩
    · constructor
      · intro habs
        have hne : ("error" : String) = "success" := habs
        simp at hne
      · rintro ⟨i, _, hi, _⟩
        omega
    · intro habs
      have hne : ("error" : String) = "success" := habs
      simp at hne
  | succ d ih =>
    intro rc hd hside
    have hrc : rc < maxR := by omega
    by_cases hs : attemptSucceeds (outcome rc) = true
    · have hres : submitLoop outcome maxR rc (lastErrAt outcome rc) rc (sleepsAt rc) =
          ⟨"success", "Quiz submitted successfully", none, rc + 1, sleepsAt rc⟩ := by
        rw [submitLoop]
        rw [dif_pos hrc, if_pos hs]
      rw [hres]
      refine ⟨?_, ?_, ?_, ?_⟩
      · show rc + 1 ≤ maxR
        omega
      · exact ⟨fun _ => ⟨rc, Nat.le_refl rc, hrc, hs⟩, fun _ => rfl⟩
      · intro hall
        exact absurd hs (by simp [hall rc (Nat.le_refl rc) hrc])
      · intro _
        exact ⟨rc, Nat.le_refl rc, hrc, hs, rfl⟩
    · have hsf : attemptSucceeds (outcome rc) = false := by
        cases hv : attemptSucceeds (outcome rc)
        · rfl
        · exact absurd hv hs
      by_cases hlt : rc + 1 < maxR
      · have hres : submitLoop outcome maxR rc (lastErrAt outcome rc) rc (sleepsAt rc) =
            submitLoop outcome maxR (rc + 1) (lastErrAt outcome (rc + 1)) (rc + 1)
              (sleepsAt (rc + 1)) := by
          rw [submitLoop]
          rw [dif_pos hrc, if_neg (by simp [hsf]), if_pos hlt, ← sleepsAt_succ]
          rfl
        rw [hres]
        obtain ⟨ih1, ih2, ih3, ih4⟩ := ih (rc + 1) (by omega) (Or.inl hlt)
        refine ⟨ih1, ?_, ?_, ?_⟩
        · rw [ih2]
          constructor
          · rintro ⟨i, h1, h2, h3⟩
            exact ⟨i, by omega, h2, h3⟩
          · rintro ⟨i, h1, h2, h3⟩
            rcases Nat.eq_or_lt_of_le h1 with heq | hlt2
            · rw [← heq] at h3
              exact absurd h3 (by simp [hsf])
            · exact ⟨i, by omega, h2, h3⟩
        · intro hall
          exact ih3 (fun i hge hl => hall i (by omega) hl)
        · intro hsucc
          obtain ⟨i, h1, h2, h3, h4⟩ := ih4 hsucc
          exact ⟨i, by omega, h2, h3, h4⟩
      · have hmax : maxR = rc + 1 := by omega
        subst hmax
        have hres : submitLoop outcome (rc + 1) rc (lastErrAt outcome rc) rc (sleepsAt rc) =
            ⟨"error", "Failed to submit quiz after " ++ pyNat (rc + 1) ++ " attempts",
              lastErrAt outcome (rc + 1), rc + 1, sleepsAt (rc + 1 - 1)⟩ := by
          rw [submitLoop]
          rw [dif_pos hrc, if_neg (by simp [hsf]), if_neg hlt]
          rw [submitLoop]
          rw [dif_neg hlt]
          rfl
        rw [hres]
        refine ⟨?_, ?_, fun _ => rfl, ?_⟩
        · show rc + 1 ≤ rc + 1
          omega
        · constructor
          · intro habs
            have hne : ("error" : String) = "success" := habs
            simp at hne
          · rintro ⟨i, h1, h2, h3⟩
            have hieq : i = rc := by omega
            rw [hieq] at h3
            exact absurd h3 (by simp [hsf])
        · intro habs
          have hne : ("error" : String) = "success" := habs
          simp at hne

/-- C6: `submit_quiz_answers` makes at most `max_retries` attempts,
sleeps `2^attempt` seconds between consecutive attempts, treats an
attempt as successful exactly when the resulting page text contains
"success", "thank you" or "submitted", and after `max_retries`
consecutive failed attempts returns the terminal failure dict (status
"error", last error recorded) instead of raising. -/
theorem submit_quiz_answers_retry_policy (outcome : Nat → AttemptOutcome)
    (maxRetries : Nat) :
    (submit_quiz_answers outcome maxRetries).attempts ≤ maxRetries ∧
    ((submit_quiz_answers outcome maxRetries).status = "success" ↔
      ∃ i, i < maxRetries ∧ attemptSucceeds (outcome i) = true) ∧
    ((∀ i, i < maxRetries → attemptSucceeds (outcome i) = false) →
      (submit_quiz_answers outcome maxRetries).status = "error" ∧
      (submit_quiz_answers outcome maxRetries).error = lastErrAt outcome maxRetries ∧
      (submit_quiz_answers outcome maxRetries).attempts = maxRetries) ∧
    (submit_quiz_answers outcome maxRetries).sleeps =
      (List.range ((submit_quiz_answers outcome maxRetries).attempts - 1)).map
        (fun k => 2 ^ (k + 1)) := by
  rw [show submit_quiz_answers outcome maxRetries =
    submitLoop outcome maxRetries 0 (lastErrAt outcome 0) 0 (sleepsAt 0) from rfl]
  have h := submitLoop_run outcome maxRetries (maxRetries - 0) 0 rfl (Or.inr rfl)
  refine ⟨h.1, ?_, ?_, ?_⟩
  · rw [h.2.1]
    constructor
    · rintro ⟨i, _, h2, h3⟩
      exact ⟨i, h2, h3⟩
    · rintro ⟨i, h2, h3⟩
      exact ⟨i, Nat.zero_le i, h2, h3⟩
  · intro hall
    have h3 := h.2.2.1 (fun i _ hl => hall i hl)
    rw [h3]
    exact ⟨rfl, rfl, rfl⟩
  · by_cases hsucc : (submitLoop outcome maxRetries 0 (lastErrAt outcome 0) 0
        (sleepsAt 0)).status = "success"
    · obtain ⟨i, _, _, _, heq⟩ := h.2.2.2 hsucc
      rw [heq]
      simp [sleepsAt]
    · have hall : ∀ i, i < maxRetries → attemptSucceeds (outcome i) = false := by
        intro i hi
        cases hv : attemptSucceeds (outcome i)
        · rfl
        · exact absurd ((h.2.1).mpr ⟨i, Nat.zero_le i, hi, hv⟩) hsucc
      have h3 := h.2.2.1 (fun i _ hl => hall i hl)
      rw [h3]
      simp [sleepsAt]

theorem submit_quiz_answers_retry_policy_witness :
    (submit_quiz_answers (fun _ => .exn "boom") 2).status = "error" ∧
    (submit_quiz_answers (fun _ => .exn "boom") 2).error =
      lastErrAt (fun _ => .exn "boom") 2 ∧
    (submit_quiz_answers (fun _ => .exn "boom") 2).attempts = 2 :=
  (submit_quiz_answers_retry_policy (fun _ => .exn "boom") 2).2.2.1
    (fun _ _ => rfl)

/-- C9: `submit_quiz_answer` takes the HTML-form path exactly when the
navigated page contains at least one `<form>` element and the API path
when it contains none; the API path issues a POST with a JSON-encoded
body and `Content-Type: application/json`, parses the response as JSON
falling back to raw text, and reports success exactly when
`200 ≤ status < 300`. -/
theorem submit_quiz_answer_branching (env : SubmitAnswerEnv) (url : String)
    (d : JVal) (hnav : env.nav = .ok ()) :
    ((submit_quiz_answer env url d).1 = some .form ↔ 1 ≤ env.formsCount) ∧
    ((submit_quiz_answer env url d).1 = some .api ↔ env.formsCount = 0) ∧
    (∀ a, env.api = .ok a → env.formsCount = 0 →
      ∃ req res, (submit_quiz_answer env url d).2 = .ok (.viaApi req res) ∧
        req.method = "POST" ∧ req.contentType = "application/json" ∧
        req.url = url ∧ req.body = jdump d ∧
        res.status_code = a.status ∧
        (res.success = true ↔ 200 ≤ a.status ∧ a.status < 300) ∧
        (a.jsonParse = none → res.response = .raw a.rawText) ∧
        (∀ j, a.jsonParse = some j → res.response = .parsed j)) := by
  unfold submit_quiz_answer
  rw [hnav]
  by_cases hf : env.formsCount > 0
  · rw [if_pos hf]
    refine ⟨⟨fun _ => by omega, fun _ => rfl⟩, ⟨fun habs => ?_, fun h0 => by omega⟩, ?_⟩
    · have : (SubPath.form : SubPath) = SubPath.api := Option.some.inj habs
      cases this
    · intro a _ h0
      omega
  · rw [if_neg hf]
    have h0 : env.formsCount = 0 := by omega
    refine ⟨⟨fun habs => ?_, fun h1 => by omega⟩, ⟨fun _ => h0, fun _ => rfl⟩, ?_⟩
    · have : (SubPath.api : SubPath) = SubPath.form := Option.some.inj habs
      cases this
    · intro a ha _
      rw [ha]
      refine ⟨⟨"POST", url, "application/json", "application/json", jdump d⟩,
        ⟨decide (200 ≤ a.status ∧ a.status < 300), a.status,
          match a.jsonParse with
          | some j => .parsed j
          | none => .raw a.rawText⟩, rfl, rfl, rfl, rfl, rfl, rfl, ?_, ?_, ?_⟩
      · exact decide_eq_true_iff
      · intro hj
        rw [hj]
      · intro j hj
        rw [hj]

theorem submit_quiz_answer_branching_witness :
    ∃ req res,
      (submit_quiz_answer ⟨.ok (), 0, .ok ⟨true, "ok"⟩, .ok ⟨204, none, "accepted"⟩⟩
          "https://example.com/submit" (.jobj [("answer", .jstr "42")])).2 =
        .ok (.viaApi req res) ∧
      req.method = "POST" ∧ req.contentType = "application/json" ∧
      req.url = "https://example.com/submit" ∧
      req.body = jdump (.jobj [("answer", .jstr "42")]) ∧
      res.status_code = 204 ∧
      (res.success = true ↔ 200 ≤ 204 ∧ 204 < 300) ∧
      ((none : Option JVal) = none → res.response = .raw "accepted") ∧
      (∀ j, (none : Option JVal) = some j → res.response = .parsed j) :=
  (submit_quiz_answer_branching
      ⟨.ok (), 0, .ok ⟨true, "ok"⟩, .ok ⟨204, none, "accepted"⟩⟩
      "https://example.com/submit" (.jobj [("answer", .jstr "42")]) rfl).2.2
    ⟨204, none, "accepted"⟩ rfl rfl

end QuizRepo
